import Mathlib

/-!
Verification of the dynamic-sky controller
(`examples/pixel-city-advanced/dynamic_sky.py`).

The script's core is shallowly embedded here: Python floats become `ℝ`,
Python ints become `ℤ`, timestamps become `ℝ` (seconds; for the cache model
`ℤ` epoch seconds with local midnights at multiples of 86400), fallible
values become `Option`.  `round` is Python 3's round-half-to-even,
modelled by `pyround`.  External `hyprlax ctl modify/add` invocations are
modelled as an emitted list of `Call`s; the external system's per-call
success/failure is an oracle parameter `okf` passed to the tick (the
source reads each call's return code but never uses it for control flow,
which the theorems below make explicit).
-/

namespace DynamicSky

open Real

/-- Python `round` (banker's rounding, round-half-to-even) composed with
`int(...)` as used in `compute_arch_xy`. -/
noncomputable def pyround (x : ℝ) : ℤ :=
  if Int.fract x < 1 / 2 then ⌊x⌋
  else if 1 / 2 < Int.fract x then ⌊x⌋ + 1
  else if Even ⌊x⌋ then ⌊x⌋ else ⌊x⌋ + 1

/-- `clamp` from dynamic_sky.py: `a if x < a else b if x > b else x`. -/
noncomputable def clamp (x a b : ℝ) : ℝ :=
  if x < a then a else if b < x then b else x

/-- `smoothstep` from dynamic_sky.py. -/
noncomputable def smoothstep (x : ℝ) : ℝ :=
  let c := clamp x 0 1
  c * c * (3 - 2 * c)

/-- `compute_arch_xy(t, W, H, y_base_px, arc_height_px, margins)`:
linear x across the screen between the margins, sinusoidal arch for y,
both rounded to ints.  `H` is accepted but unused, as in the source. -/
noncomputable def compute_arch_xy (t : ℝ) (W H : ℤ) (y_base_px arc_height_px : ℝ)
    (margins : ℝ × ℝ) : ℤ × ℤ :=
  let left := margins.1
  let right := margins.2
  let tc := clamp t 0 1
  let x := left + ((W : ℝ) - left - right) * tc
  let y := y_base_px - arc_height_px * Real.sin (Real.pi * tc)
  (pyround x, pyround y)

/-- The four sky phases returned by `classify_phase`. -/
inductive Phase
  | night
  | dawn
  | day
  | dusk
deriving DecidableEq

/-- `classify_phase(now, sunrise, sunset, twilight_minutes)`.  Times are
seconds; `timedelta(minutes=m)` is `60 * m` seconds.  The branch order of
the source is kept: night first, then dawn, then dusk, else day. -/
noncomputable def classify_phase (now sunrise sunset : ℝ) (twilight_minutes : ℤ) : Phase :=
  let tw : ℝ := 60 * (twilight_minutes : ℝ)
  let dawn_start := sunrise - tw
  let dawn_end := sunrise + tw
  let dusk_start := sunset - tw
  let dusk_end := sunset + tw
  if now < dawn_start ∨ dusk_end ≤ now then .night
  else if dawn_start ≤ now ∧ now < dawn_end then .dawn
  else if dusk_start ≤ now ∧ now < dusk_end then .dusk
  else .day

/-- A tint specification: either the literal string `'none'` or a
`"#rrggbb:<strength>"` pair.  The strength is kept as the exact real that
the source formats with `f"{s:.2f}"`; the gating comparison in `main`
factors through this value. -/
inductive Tint
  | none
  | spec (color : String) (strength : ℝ)

noncomputable instance : DecidableEq Tint := fun _ _ => Classical.dec _

/-- `tint_spec(hexrgb, strength)`: clamps the strength into [0,1]. -/
noncomputable def tint_spec (hexrgb : String) (strength : ℝ) : Tint :=
  .spec hexrgb (clamp strength 0 1)

/-- `compute_tint_all_layers(phase, minutes_to_edge, twilight_minutes)`. -/
noncomputable def compute_tint_all_layers (phase : Phase) (minutes_to_edge : ℝ)
    (twilight_minutes : ℤ) : Tint :=
  if phase = .day then .none
  else if phase = .dawn ∨ phase = .dusk then
    let denom : ℝ := max 1 (twilight_minutes : ℝ)
    let k := smoothstep (1 - clamp |minutes_to_edge| 0 denom / denom)
    tint_spec "#ffb566" (0.30 * k)
  else tint_spec "#000000" 0.50

/-- The tint strength formula as the spec words it for dawn/dusk:
`0.30 * smoothstep (1 - |minutes_to_edge| / twilight_minutes)`
(no inner clamp; refinement target for the code's expression). -/
noncomputable def specTintStrength (minutes_to_edge : ℝ) (twilight_minutes : ℤ) : ℝ :=
  0.30 * smoothstep (1 - |minutes_to_edge| / (twilight_minutes : ℝ))

/-- Local midnight preceding an epoch instant: `now.replace(hour=0, ...)`,
with local days at multiples of 86400 seconds. -/
def localMidnight (now : ℤ) : ℤ :=
  now - now % 86400

/-- The `fresh` predicate inside `get_astro_data`, for a cache entry whose
`_ts` field is `ts`: stale if `_ts` is before today's local midnight
(and `now` is past it), otherwise fresh iff strictly younger than 6 hours. -/
def astro_fresh (ts now : ℤ) : Bool :=
  if ts < localMidnight now ∧ localMidnight now ≤ now then false
  else decide (now - ts < 21600)

/-- The day's astronomical data and the CLI/derived configuration that
`compute_once` closes over in `main`: times in seconds, screen geometry,
moon-phase override/band (already clamped, as in `main`), and the
precomputed arch geometry. -/
structure Config where
  sunrise : ℝ
  sunset : ℝ
  next_sunrise : ℝ
  mp : Option ℝ
  force_moon : Bool
  phase_min : ℝ
  phase_max : ℝ
  twilight_minutes : ℤ
  W : ℤ
  H : ℤ
  y_base : ℝ
  arch_day : ℝ
  arch_night : ℝ

/-- The `(t_day, t_night)` computation at the top of `compute_once`:
day progress inside `[sunrise, sunset]`, else night progress over
`[sunset, next_sunrise]` after sunset, or over the approximated
`[sunset - 24h, sunrise]` before sunrise. -/
noncomputable def compute_t (c : Config) (now : ℝ) : Option ℝ × Option ℝ :=
  if c.sunrise ≤ now ∧ now ≤ c.sunset then
    (some ((now - c.sunrise) / (c.sunset - c.sunrise)), none)
  else if c.sunset ≤ now then
    (none, some ((now - c.sunset) / (c.next_sunrise - c.sunset)))
  else
    (none, some ((now - (c.sunset - 86400)) / (c.sunrise - (c.sunset - 86400))))

/-- The per-tick computed sky state returned by `compute_once`. -/
structure SkyState where
  phase : Phase
  sun_visible : Bool
  moon_visible : Bool
  sun_xy : Option (ℤ × ℤ)
  moon_xy : Option (ℤ × ℤ)
  layer_tint : Tint

/-- `compute_once(now_dt)` from `main` (default margins `(80, 80)` of
`compute_arch_xy` apply, as in the source's calls). -/
noncomputable def compute_once (c : Config) (now : ℝ) : SkyState :=
  let phase := classify_phase now c.sunrise c.sunset c.twilight_minutes
  let td := (compute_t c now).1
  let tn := (compute_t c now).2
  let sun_visible : Bool := td.isSome
  let moon_visible0 : Bool :=
    if sun_visible then false
    else if c.force_moon then true
    else match c.mp with
      | Option.none => false
      | some v => decide (c.phase_min ≤ v ∧ v ≤ c.phase_max)
  let sun_xy : Option (ℤ × ℤ) :=
    match td with
    | some t => some (compute_arch_xy t c.W c.H c.y_base c.arch_day (80, 80))
    | Option.none => Option.none
  let moon_xy : Option (ℤ × ℤ) :=
    if sun_visible then Option.none
    else match tn with
      | some t => some (compute_arch_xy t c.W c.H c.y_base c.arch_night (80, 80))
      | Option.none => Option.none
  let minutes_to_edge :=
    min (min (|now - c.sunrise| / 60) (|now - c.sunset| / 60)) (|now - c.next_sunrise| / 60)
  let layer_tint := compute_tint_all_layers phase minutes_to_edge c.twilight_minutes
  { phase := phase
    sun_visible := sun_visible
    moon_visible := moon_visible0 && !sun_visible
    sun_xy := sun_xy
    moon_xy := moon_xy
    layer_tint := layer_tint }

/-- The gating dictionary `last` of `main` (`layer_tint` starts absent,
hence `Option`). -/
structure Gating where
  sun_xy : Option (ℤ × ℤ)
  moon_xy : Option (ℤ × ℤ)
  layer_tint : Option Tint

/-- The discovered/created layer ids used by the loop. -/
structure Layers where
  sun_id : Option ℤ
  moon_id : Option ℤ
  all_ids : List ℤ

/-- Loop flags that affect emission: `--dry-run` and demo mode (which
shrinks the position epsilon from 10 to 3). -/
structure LoopCfg where
  dry_run : Bool
  demo : Bool

inductive Body
  | sun
  | moon
deriving DecidableEq

/-- One externally visible action of a tick: an overlay PNG redraw, or a
`hyprlax ctl modify` call (path refresh, visibility, tint). -/
inductive Call
  | draw (b : Body)
  | refreshPath (lid : ℤ) (b : Body)
  | setVisible (lid : ℤ) (v : Bool)
  | setTint (lid : ℤ) (t : Tint)

noncomputable instance : DecidableEq Call := fun _ _ => Classical.dec _

/-- Python truthiness of a layer id (`None` and `0` are falsy). -/
def truthy : Option ℤ → Bool
  | Option.none => false
  | some v => v != 0

/-- The id value carried by a truthy `Option`. -/
def idVal : Option ℤ → ℤ
  | Option.none => 0
  | some v => v

/-- The position-gating test of `main`:
`(last is None) or (max(|dx|, |dy|) > pos_eps)`. -/
def posChanged (p : ℤ × ℤ) (lastp : Option (ℤ × ℤ)) (pos_eps : ℤ) : Bool :=
  match lastp with
  | Option.none => true
  | some q => decide (max |p.1 - q.1| |p.2 - q.2| > pos_eps)

/-- The position-gating epsilon: 3 px in demo mode, 10 px otherwise. -/
def posEps (lc : LoopCfg) : ℤ :=
  if lc.demo then 3 else 10

/-- The sun branch of the loop body: redraw+refresh when the position
moved past the epsilon, then the unconditional visibility toggles. -/
noncomputable def sunCalls (lc : LoopCfg) (layers : Layers) (last : Gating) (s : SkyState) :
    List Call :=
  if s.sun_visible && s.sun_xy.isSome then
    match s.sun_xy with
    | some p =>
      (if posChanged p last.sun_xy (posEps lc) then
          [Call.draw .sun] ++
          (if !lc.dry_run && truthy layers.sun_id then
            [Call.refreshPath (idVal layers.sun_id) .sun] else [])
        else []) ++
      (if !lc.dry_run && truthy layers.moon_id then
        [Call.setVisible (idVal layers.moon_id) false] else []) ++
      (if !lc.dry_run && truthy layers.sun_id then
        [Call.setVisible (idVal layers.sun_id) true] else [])
    | Option.none => []
  else
    (if !lc.dry_run && truthy layers.sun_id then
      [Call.setVisible (idVal layers.sun_id) false] else [])

/-- The moon branch of the loop body. -/
noncomputable def moonCalls (lc : LoopCfg) (layers : Layers) (last : Gating) (s : SkyState) :
    List Call :=
  if s.moon_visible && s.moon_xy.isSome then
    match s.moon_xy with
    | some p =>
      (if posChanged p last.moon_xy (posEps lc) then
          [Call.draw .moon] ++
          (if !lc.dry_run && truthy layers.moon_id then
            [Call.refreshPath (idVal layers.moon_id) .moon] else [])
        else []) ++
      (if !lc.dry_run && truthy layers.sun_id then
        [Call.setVisible (idVal layers.sun_id) false] else []) ++
      (if !lc.dry_run && truthy layers.moon_id then
        [Call.setVisible (idVal layers.moon_id) true] else [])
    | Option.none => []
  else
    (if !lc.dry_run && truthy layers.moon_id then
      [Call.setVisible (idVal layers.moon_id) false] else [])

/-- The tint branch of the loop body: `apply_tint_all` on every non-overlay
layer, only when the tint specification changed (and not in dry-run). -/
noncomputable def tintCalls (lc : LoopCfg) (layers : Layers) (last : Gating) (s : SkyState) :
    List Call :=
  if some s.layer_tint ≠ last.layer_tint then
    (if lc.dry_run then [] else
      (layers.all_ids.filter
        (fun lid => !(some lid == layers.sun_id || some lid == layers.moon_id))).map
        (fun lid => Call.setTint lid s.layer_tint))
  else []

/-- The calls emitted by one loop body iteration of `main`, given the
computed state `s` and the gating state `last`: sun branch, then moon
branch, then tint application.  Mirrors the source's guards, including
`not args.dry_run and layers[...]` truthiness and the unconditional
visibility toggles. -/
noncomputable def emit (lc : LoopCfg) (layers : Layers) (last : Gating) (s : SkyState) :
    List Call :=
  sunCalls lc layers last s ++ moonCalls lc layers last s ++ tintCalls lc layers last s

/-- One iteration of the reconciliation loop: compute the state, emit the
gated calls, and update the gating dictionary.  `okf` is the external
system's success/failure response per call (the return code of each
`hyprlax ctl` process); the source inspects it only for logging, so the
result does not depend on it. -/
noncomputable def tick (c : Config) (lc : LoopCfg) (layers : Layers) (last : Gating)
    (now : ℝ) (okf : Call → Bool) : Gating × List Call :=
  let s := compute_once c now
  let calls := emit lc layers last s
  ({ sun_xy := s.sun_xy, moon_xy := s.moon_xy, layer_tint := some s.layer_tint }, calls)

/-- Is a call one of the per-tick visibility toggles? -/
def isVisibilityCall : Call → Bool
  | .setVisible _ _ => true
  | _ => false

/-- Concrete configuration: sunrise 06:30 (23400 s), sunset 18:30
(66600 s), next sunrise 06:30 + 24 h, default twilight 45 min, a
1920×1080 monitor, horizon baseline 700 px and arch heights 500 px. -/
def cfgNoon : Config :=
  { sunrise := 23400
    sunset := 66600
    next_sunrise := 109800
    mp := Option.none
    force_moon := false
    phase_min := 0.05
    phase_max := 0.95
    twilight_minutes := 45
    W := 1920
    H := 1080
    y_base := 700
    arch_day := 500
    arch_night := 500 }

/-- `cfgNoon` with a near-new moon phase 0.02 reported. -/
def cfgNewMoon : Config :=
  { cfgNoon with mp := some 0.02 }

/-- `cfgNewMoon` with the `--force-moon` override set. -/
def cfgNewMoonForced : Config :=
  { cfgNewMoon with force_moon := true }

/-- Concrete layer directory: sun overlay id 7, moon overlay id 8, and
three background layers. -/
def layersX : Layers :=
  { sun_id := some 7, moon_id := some 8, all_ids := [1, 2, 7, 8] }

/-- Real-time (non-demo), non-dry-run loop flags. -/
def lcReal : LoopCfg :=
  { dry_run := false, demo := false }

/-- The initial gating state of `main`: nothing applied yet. -/
def gating0 : Gating :=
  { sun_xy := Option.none, moon_xy := Option.none, layer_tint := Option.none }

/-! ### Helper lemmas about rounding, clamping and smoothstep -/

theorem pyround_bounds (x : ℝ) : ⌊x⌋ ≤ pyround x ∧ pyround x ≤ ⌊x⌋ + 1 := by
  unfold pyround
  split_ifs <;> omega

theorem pyround_mono {x y : ℝ} (h : x ≤ y) : pyround x ≤ pyround y := by
  rcases lt_or_eq_of_le (Int.floor_mono h) with hf | hf
  · calc pyround x ≤ ⌊x⌋ + 1 := (pyround_bounds x).2
      _ ≤ ⌊y⌋ := by omega
      _ ≤ pyround y := (pyround_bounds y).1
  · have hfr : Int.fract x ≤ Int.fract y := by
      have hx := Int.floor_add_fract x
      have hy := Int.floor_add_fract y
      have hcast : ((⌊x⌋ : ℤ) : ℝ) = ((⌊y⌋ : ℤ) : ℝ) := by exact_mod_cast hf
      linarith
    unfold pyround
    rw [hf]
    split_ifs <;> first | omega | linarith

theorem pyround_intCast (n : ℤ) : pyround (n : ℝ) = n := by
  unfold pyround
  rw [Int.fract_intCast, Int.floor_intCast]
  norm_num

theorem clamp_of_mem {x a b : ℝ} (h1 : a ≤ x) (h2 : x ≤ b) : clamp x a b = x := by
  unfold clamp
  rw [if_neg (not_lt.mpr h1), if_neg (not_lt.mpr h2)]

theorem clamp_mem {x a b : ℝ} (hab : a ≤ b) : a ≤ clamp x a b ∧ clamp x a b ≤ b := by
  unfold clamp
  split_ifs <;> constructor <;> linarith

theorem clamp_mono {a b x y : ℝ} (hab : a ≤ b) (h : x ≤ y) :
    clamp x a b ≤ clamp y a b := by
  unfold clamp
  split_ifs <;> linarith

theorem smoothstep_mem (x : ℝ) : 0 ≤ smoothstep x ∧ smoothstep x ≤ 1 := by
  simp only [smoothstep]
  obtain ⟨h0, h1⟩ := clamp_mem (x := x) (zero_le_one)
  constructor
  · nlinarith
  · nlinarith [sq_nonneg (1 - clamp x 0 1)]

theorem smoothstep_one : smoothstep 1 = 1 := by
  simp only [smoothstep]
  rw [clamp_of_mem (by norm_num) (le_refl 1)]
  norm_num

theorem smoothstep_of_nonpos {x : ℝ} (h : x ≤ 0) : smoothstep x = 0 := by
  simp only [smoothstep, clamp]
  split_ifs with h1 h2
  · ring
  · linarith
  · have hx0 : x = 0 := le_antisymm h (not_lt.mp h1)
    rw [hx0]; ring

theorem smoothstep_lt_one {x : ℝ} (h : x < 1) : smoothstep x < 1 := by
  simp only [smoothstep]
  obtain ⟨h0, h1⟩ := clamp_mem (x := x) (zero_le_one)
  have hclt : clamp x 0 1 < 1 := by
    unfold clamp
    split_ifs <;> linarith
  have hgap : 0 < 1 - clamp x 0 1 := by linarith
  nlinarith [pow_pos hgap 2]

/-! ### Concrete evaluations at the scenario inputs -/

theorem classify_noon : classify_phase 45000 23400 66600 45 = Phase.day := by
  simp only [classify_phase]
  norm_num

theorem arch_noon : compute_arch_xy (2⁻¹ : ℝ) 1920 1080 700 500 (80, 80) = (960, 200) := by
  simp only [compute_arch_xy]
  rw [clamp_of_mem (by norm_num) (by norm_num)]
  have hx : (80 : ℝ) + (((1920 : ℤ) : ℝ) - 80 - 80) * (2⁻¹ : ℝ) = ((960 : ℤ) : ℝ) := by
    norm_num
  have hs : Real.sin (Real.pi * (2⁻¹ : ℝ)) = 1 := by
    rw [show Real.pi * (2⁻¹ : ℝ) = Real.pi / 2 by ring]
    exact Real.sin_pi_div_two
  have hy : (700 : ℝ) - 500 * Real.sin (Real.pi * (2⁻¹ : ℝ)) = ((200 : ℤ) : ℝ) := by
    rw [hs]; norm_num
  rw [hx, hy, pyround_intCast, pyround_intCast]

theorem compute_t_noon : compute_t cfgNoon 45000 = (some (1 / 2), Option.none) := by
  simp only [compute_t, cfgNoon]
  norm_num

theorem compute_once_noon :
    compute_once cfgNoon 45000 =
      { phase := .day
        sun_visible := true
        moon_visible := false
        sun_xy := some (960, 200)
        moon_xy := Option.none
        layer_tint := .none } := by
  simp only [compute_once, compute_t_noon]
  simp only [cfgNoon]
  simp only [classify_noon]
  simp [arch_noon, compute_tint_all_layers]

theorem compute_t_newmoon_fst : (compute_t cfgNewMoon 1800).1 = Option.none := by
  simp only [compute_t, cfgNewMoon, cfgNoon]
  norm_num

theorem sun_vis_newmoon : (compute_once cfgNewMoon 1800).sun_visible = false := by
  simp only [compute_once, compute_t_newmoon_fst]
  rfl

theorem moon_vis_newmoon : (compute_once cfgNewMoon 1800).moon_visible = false := by
  simp only [compute_once, compute_t_newmoon_fst]
  simp only [cfgNewMoon, cfgNoon]
  simp only [Option.isSome_none, Bool.false_eq_true, if_false, Bool.not_false, Bool.and_true]
  rw [decide_eq_false (by norm_num : ¬((0.05 : ℝ) ≤ 0.02 ∧ (0.02 : ℝ) ≤ 0.95))]

theorem compute_t_newmoon_forced_fst : (compute_t cfgNewMoonForced 1800).1 = Option.none := by
  simp only [compute_t, cfgNewMoonForced, cfgNewMoon, cfgNoon]
  norm_num

theorem sun_vis_newmoon_forced : (compute_once cfgNewMoonForced 1800).sun_visible = false := by
  simp only [compute_once, compute_t_newmoon_forced_fst]
  rfl

theorem moon_vis_newmoon_forced :
    (compute_once cfgNewMoonForced 1800).moon_visible = true := by
  simp only [compute_once, compute_t_newmoon_forced_fst]
  simp only [cfgNewMoonForced, cfgNewMoon, cfgNoon]
  simp

/-! ### Helper lemmas about the loop body -/

theorem posChanged_self (p : ℤ × ℤ) (lc : LoopCfg) :
    posChanged p (some p) (posEps lc) = false := by
  unfold posChanged posEps
  cases hd : lc.demo <;> simp

theorem vis_chunk_all (c : Bool) (lid : ℤ) (v : Bool) :
    (if c then [Call.setVisible lid v] else []).all isVisibilityCall = true := by
  cases c <;> rfl

theorem all_vis_append {l1 l2 : List Call}
    (h1 : l1.all isVisibilityCall = true) (h2 : l2.all isVisibilityCall = true) :
    (l1 ++ l2).all isVisibilityCall = true := by
  simp [List.all_append, h1, h2]

theorem sunCalls_second_all_vis (lc : LoopCfg) (L : Layers) (s : SkyState) :
    (sunCalls lc L { sun_xy := s.sun_xy, moon_xy := s.moon_xy, layer_tint := some s.layer_tint }
      s).all isVisibilityCall = true := by
  unfold sunCalls
  cases hb : (s.sun_visible && s.sun_xy.isSome) with
  | false =>
    simp only [hb, Bool.false_eq_true, if_false]
    exact vis_chunk_all _ _ _
  | true =>
    have hb2 : s.sun_visible = true ∧ s.sun_xy.isSome = true := by simpa using hb
    obtain ⟨p, hp⟩ := Option.isSome_iff_exists.mp hb2.2
    simp only [hb, if_true, hp]
    rw [posChanged_self]
    simp only [Bool.false_eq_true, if_false, List.nil_append]
    exact all_vis_append (vis_chunk_all _ _ _) (vis_chunk_all _ _ _)

theorem moonCalls_second_all_vis (lc : LoopCfg) (L : Layers) (s : SkyState) :
    (moonCalls lc L { sun_xy := s.sun_xy, moon_xy := s.moon_xy, layer_tint := some s.layer_tint }
      s).all isVisibilityCall = true := by
  unfold moonCalls
  cases hb : (s.moon_visible && s.moon_xy.isSome) with
  | false =>
    simp only [hb, Bool.false_eq_true, if_false]
    exact vis_chunk_all _ _ _
  | true =>
    have hb2 : s.moon_visible = true ∧ s.moon_xy.isSome = true := by simpa using hb
    obtain ⟨p, hp⟩ := Option.isSome_iff_exists.mp hb2.2
    simp only [hb, if_true, hp]
    rw [posChanged_self]
    simp only [Bool.false_eq_true, if_false, List.nil_append]
    exact all_vis_append (vis_chunk_all _ _ _) (vis_chunk_all _ _ _)

theorem tintCalls_second_nil (lc : LoopCfg) (L : Layers) (s : SkyState) :
    tintCalls lc L { sun_xy := s.sun_xy, moon_xy := s.moon_xy, layer_tint := some s.layer_tint }
      s = [] := by
  unfold tintCalls
  rw [if_neg (by simp)]

theorem emit_noon_first :
    emit lcReal layersX gating0 (compute_once cfgNoon 45000) =
      [Call.draw .sun, Call.refreshPath 7 .sun, Call.setVisible 8 false, Call.setVisible 7 true,
       Call.setVisible 8 false, Call.setTint 1 .none, Call.setTint 2 .none] := by
  rw [compute_once_noon]
  have hfilter :
      (layersX.all_ids.filter
        (fun lid => !(some lid == layersX.sun_id || some lid == layersX.moon_id))) = [1, 2] := by
    decide
  unfold emit sunCalls moonCalls tintCalls
  rw [if_pos (by simp [gating0] : some Tint.none ≠ gating0.layer_tint)]
  simp only [hfilter]
  simp [posChanged, posEps, truthy, idVal, lcReal, layersX, gating0]

theorem tick_noon_gating (okf : Call → Bool) :
    (tick cfgNoon lcReal layersX gating0 45000 okf).1 =
      { sun_xy := some (960, 200), moon_xy := Option.none, layer_tint := some Tint.none } := by
  simp only [tick, compute_once_noon]

theorem emit_noon_second :
    emit lcReal layersX
      { sun_xy := some (960, 200), moon_xy := Option.none, layer_tint := some Tint.none }
      (compute_once cfgNoon 45000) =
      [Call.setVisible 8 false, Call.setVisible 7 true, Call.setVisible 8 false] := by
  rw [compute_once_noon]
  unfold emit sunCalls moonCalls tintCalls
  rw [if_neg (by simp : ¬(some Tint.none ≠ some Tint.none))]
  simp [posChanged, posEps, truthy, idVal, lcReal, layersX]

/-! ### Claim theorems -/

/-- C1, counterexample.  The claim says that when an external modify call
fails (returns non-zero), the corresponding gating entry is not advanced.
At solar noon, starting from the empty gating state and with an external
system on which every call fails (`okf = fun _ => false`), the tick emits
the sun refresh call (which fails), and yet the gating entry for
`sun_xy` is advanced from `none` to the computed position anyway. -/
theorem c1_counterexample :
    Call.refreshPath 7 .sun ∈ (tick cfgNoon lcReal layersX gating0 45000 (fun _ => false)).2 ∧
    (fun _ => (false : Bool)) (Call.refreshPath 7 .sun) = false ∧
    gating0.sun_xy = Option.none ∧
    (tick cfgNoon lcReal layersX gating0 45000 (fun _ => false)).1.sun_xy = some (960, 200) := by
  refine ⟨?_, rfl, rfl, ?_⟩
  · show Call.refreshPath 7 .sun ∈ emit lcReal layersX gating0 (compute_once cfgNoon 45000)
    rw [emit_noon_first]
    simp
  · rw [tick_noon_gating]

/-- C1, amended: after each tick the gating state (`last`) is set
unconditionally to the *computed* `sun_xy`, `moon_xy` and tint — it does
not depend on the success or failure of the emitted external calls (the
source never consults the return codes), so a failed apply is not retried
while the computed state stays unchanged. -/
theorem c1_gating_advances_unconditionally (c : Config) (lc : LoopCfg) (L : Layers)
    (last : Gating) (now : ℝ) (okf okf2 : Call → Bool) :
    (tick c lc L last now okf).1 =
      { sun_xy := (compute_once c now).sun_xy
        moon_xy := (compute_once c now).moon_xy
        layer_tint := some ((compute_once c now).layer_tint) } ∧
    tick c lc L last now okf = tick c lc L last now okf2 :=
  ⟨rfl, rfl⟩

/-- C2, counterexample.  The claim says that running the loop twice at
the same `now` (gating carried over) makes the second run emit *zero*
external mutation calls, including no visibility toggle.  At solar noon
the second run still emits its per-tick visibility toggles, so its call
list is not empty. -/
theorem c2_counterexample :
    (tick cfgNoon lcReal layersX
      ((tick cfgNoon lcReal layersX gating0 45000 (fun _ => true)).1)
      45000 (fun _ => true)).2 ≠ [] := by
  rw [tick_noon_gating]
  show emit lcReal layersX
      { sun_xy := some (960, 200), moon_xy := Option.none, layer_tint := some Tint.none }
      (compute_once cfgNoon 45000) ≠ []
  rw [emit_noon_second]
  simp

/-- C2, amended: on the second run of the loop body at the same `now`,
with the gating state produced by the first run, every emitted call is a
visibility toggle — no overlay redraw, no path refresh and no tint call
is emitted (the position deltas are zero, below the positive epsilon, and
the tint specification is unchanged). -/
theorem c2_second_tick_visibility_only (c : Config) (lc : LoopCfg) (L : Layers)
    (last : Gating) (now : ℝ) (okf okf2 : Call → Bool) :
    ((tick c lc L ((tick c lc L last now okf).1) now okf2).2).all isVisibilityCall = true := by
  show (emit lc L
      { sun_xy := (compute_once c now).sun_xy
        moon_xy := (compute_once c now).moon_xy
        layer_tint := some ((compute_once c now).layer_tint) }
      (compute_once c now)).all isVisibilityCall = true
  unfold emit
  exact all_vis_append
    (all_vis_append (sunCalls_second_all_vis _ _ _) (moonCalls_second_all_vis _ _ _))
    (by rw [tintCalls_second_nil]; rfl)

/-- C3: a cached astro entry is fresh at `now` iff strictly less than 6
hours (21600 s) old AND no local-midnight boundary (a multiple of 86400 s)
lies in `(ts, now]`; in particular an entry stamped at 23:59 (86340 s) is
stale at 00:01 the next day (86460 s) although only 2 minutes elapsed. -/
theorem c3_cache_freshness :
    (∀ ts now : ℤ, astro_fresh ts now = true ↔
      (now - ts < 21600 ∧ ¬ ∃ m : ℤ, m % 86400 = 0 ∧ ts < m ∧ m ≤ now)) ∧
    astro_fresh 86340 86460 = false ∧ ((86460 : ℤ) - 86340 < 21600) := by
  refine ⟨?_, by decide, by decide⟩
  intro ts now
  have hb : (∃ m : ℤ, m % 86400 = 0 ∧ ts < m ∧ m ≤ now) ↔ ts < localMidnight now := by
    constructor
    · rintro ⟨m, hm, hm1, hm2⟩
      unfold localMidnight
      omega
    · intro h
      exact ⟨localMidnight now, by unfold localMidnight; omega, h,
        by unfold localMidnight; omega⟩
  unfold astro_fresh
  by_cases hc : ts < localMidnight now ∧ localMidnight now ≤ now
  · rw [if_pos hc]
    simp only [hb]
    constructor
    · intro h
      exact (Bool.false_ne_true h).elim
    · rintro ⟨h1, h2⟩
      exact absurd hc.1 h2
  · rw [if_neg hc]
    simp only [decide_eq_true_eq, hb]
    unfold localMidnight at hc ⊢
    omega

/-- C4, counterexample.  The claim asserts that for any
`twilight_minutes ≥ 0` the phases realize dawn = [sunrise−tw, sunrise+tw)
and dusk = [sunset−tw, sunset+tw) with no overlaps.  With sunrise 0,
sunset 60 s and twilight 1 minute the windows overlap, and the instant 30
lies inside the claimed dusk window yet is classified `dawn` (the source
tests the dawn window first), so the claimed dusk interval and
disjointness fail. -/
theorem c4_counterexample :
    classify_phase 30 0 60 1 = Phase.dawn ∧
    ((60 : ℝ) - 60 * ((1 : ℤ) : ℝ) ≤ 30 ∧ (30 : ℝ) < 60 + 60 * ((1 : ℤ) : ℝ)) ∧
    Phase.dawn ≠ Phase.dusk := by
  refine ⟨?_, by norm_num, by simp⟩
  simp only [classify_phase]
  norm_num

/-- C4, amended: `classify_phase` is total (always one of the four
phases), and provided the dawn and dusk windows are disjoint
(`sunrise + tw ≤ sunset − tw`, always the case for realistic twilight
spans) the four phases are exactly  dawn = [sunrise−tw, sunrise+tw),
dusk = [sunset−tw, sunset+tw), day = [sunrise+tw, sunset−tw) and
night = everything else; when the windows overlap, dawn takes precedence
over dusk on the overlap. -/
theorem c4_phase_partition (now sr ss : ℝ) (tw : ℤ) (htw : 0 ≤ tw)
    (hdisj : sr + 60 * (tw : ℝ) ≤ ss - 60 * (tw : ℝ)) :
    (classify_phase now sr ss tw = .night ∨ classify_phase now sr ss tw = .dawn ∨
      classify_phase now sr ss tw = .day ∨ classify_phase now sr ss tw = .dusk) ∧
    (classify_phase now sr ss tw = .dawn ↔
      sr - 60 * (tw : ℝ) ≤ now ∧ now < sr + 60 * (tw : ℝ)) ∧
    (classify_phase now sr ss tw = .dusk ↔
      ss - 60 * (tw : ℝ) ≤ now ∧ now < ss + 60 * (tw : ℝ)) ∧
    (classify_phase now sr ss tw = .day ↔
      sr + 60 * (tw : ℝ) ≤ now ∧ now < ss - 60 * (tw : ℝ)) ∧
    (classify_phase now sr ss tw = .night ↔
      (now < sr - 60 * (tw : ℝ) ∨ ss + 60 * (tw : ℝ) ≤ now)) := by
  have htwR : (0 : ℝ) ≤ 60 * (tw : ℝ) := by
    have : (0 : ℝ) ≤ (tw : ℝ) := by exact_mod_cast htw
    linarith
  simp only [classify_phase]
  split_ifs with h1 h2 h3
  · refine ⟨Or.inl rfl, ?_, ?_, ?_, iff_of_true rfl h1⟩
    · exact iff_of_false (by simp) (by rintro ⟨ha, hb⟩; rcases h1 with h | h <;> linarith)
    · exact iff_of_false (by simp) (by rintro ⟨ha, hb⟩; rcases h1 with h | h <;> linarith)
    · exact iff_of_false (by simp) (by rintro ⟨ha, hb⟩; rcases h1 with h | h <;> linarith)
  · refine ⟨Or.inr (Or.inl rfl), iff_of_true rfl h2, ?_, ?_, ?_⟩
    · exact iff_of_false (by simp) (by rintro ⟨ha, hb⟩; linarith [h2.2])
    · exact iff_of_false (by simp) (by rintro ⟨ha, hb⟩; linarith [h2.2])
    · exact iff_of_false (by simp) h1
  · refine ⟨Or.inr (Or.inr (Or.inr rfl)), ?_, iff_of_true rfl h3, ?_, ?_⟩
    · exact iff_of_false (by simp) (by rintro ⟨ha, hb⟩; linarith [h3.1])
    · exact iff_of_false (by simp) (by rintro ⟨ha, hb⟩; linarith [h3.1])
    · exact iff_of_false (by simp) h1
  · push_neg at h1 h2 h3
    refine ⟨Or.inr (Or.inr (Or.inl rfl)), ?_, ?_, ?_, ?_⟩
    · exact iff_of_false (by simp) (by rintro ⟨ha, hb⟩; exact absurd (h2 ha) (not_le.mpr hb))
    · exact iff_of_false (by simp) (by rintro ⟨ha, hb⟩; exact absurd (h3 ha) (not_le.mpr hb))
    · refine iff_of_true rfl ⟨h2 h1.1, ?_⟩
      by_contra hcon
      push_neg at hcon
      exact absurd (h3 hcon) (not_le.mpr h1.2)
    · exact iff_of_false (by simp) (by rintro (h | h) <;> [linarith [h1.1]; linarith [h1.2]])

/-- C4 witness: the partition theorem instantiated at the scenario day
(sunrise 23400 s, sunset 66600 s, twilight 45 min) and solar noon. -/
theorem c4_witness :
    (classify_phase 45000 23400 66600 45 = .night ∨
      classify_phase 45000 23400 66600 45 = .dawn ∨
      classify_phase 45000 23400 66600 45 = .day ∨
      classify_phase 45000 23400 66600 45 = .dusk) ∧
    (classify_phase 45000 23400 66600 45 = .dawn ↔
      (23400 : ℝ) - 60 * ((45 : ℤ) : ℝ) ≤ 45000 ∧ (45000 : ℝ) < 23400 + 60 * ((45 : ℤ) : ℝ)) ∧
    (classify_phase 45000 23400 66600 45 = .dusk ↔
      (66600 : ℝ) - 60 * ((45 : ℤ) : ℝ) ≤ 45000 ∧ (45000 : ℝ) < 66600 + 60 * ((45 : ℤ) : ℝ)) ∧
    (classify_phase 45000 23400 66600 45 = .day ↔
      (23400 : ℝ) + 60 * ((45 : ℤ) : ℝ) ≤ 45000 ∧ (45000 : ℝ) < 66600 - 60 * ((45 : ℤ) : ℝ)) ∧
    (classify_phase 45000 23400 66600 45 = .night ↔
      ((45000 : ℝ) < 23400 - 60 * ((45 : ℤ) : ℝ) ∨ (66600 : ℝ) + 60 * ((45 : ℤ) : ℝ) ≤ 45000)) :=
  c4_phase_partition 45000 23400 66600 45 (by norm_num) (by norm_num)

/-- C5: for every computed SkyState, `sun_visible` and `moon_visible` are
never simultaneously true (so moon visible implies sun not visible), and
`sun_visible` holds exactly when `t_day` is defined. -/
theorem c5_sun_moon_exclusive (c : Config) (now : ℝ) :
    ((compute_once c now).sun_visible && (compute_once c now).moon_visible) = false ∧
    (compute_once c now).sun_visible = ((compute_t c now).1).isSome := by
  refine ⟨?_, rfl⟩
  simp only [compute_once]
  cases h : ((compute_t c now).1).isSome <;> simp [h]

/-- C8: when the sun is not visible, the moon is visible iff the
force-moon override is set, or the reported moon phase lies inside the
inclusive band `[phase_min, phase_max]`; concretely, a 0.02 near-new moon
at night is hidden under the default band [0.05, 0.95], and shown when
the override is set. -/
theorem c8_moon_gating (c : Config) (now : ℝ)
    (h : (compute_once c now).sun_visible = false) :
    ((compute_once c now).moon_visible = true ↔
      (c.force_moon = true ∨ ∃ v, c.mp = some v ∧ c.phase_min ≤ v ∧ v ≤ c.phase_max)) ∧
    (compute_once cfgNewMoon 1800).moon_visible = false ∧
    (compute_once cfgNewMoonForced 1800).moon_visible = true := by
  refine ⟨?_, moon_vis_newmoon, moon_vis_newmoon_forced⟩
  have h' : ((compute_t c now).1).isSome = false := h
  simp only [compute_once, h']
  cases hf : c.force_moon
  · cases hmp : c.mp
    · simp [hmp]
    · simp [hmp, decide_eq_true_eq]
  · simp

/-- C8 witness: the gating equivalence instantiated at the near-new-moon
night configuration. -/
theorem c8_witness :
    (compute_once cfgNewMoon 1800).sun_visible = false ∧
    ((compute_once cfgNewMoon 1800).moon_visible = true ↔
      (cfgNewMoon.force_moon = true ∨
        ∃ v, cfgNewMoon.mp = some v ∧ cfgNewMoon.phase_min ≤ v ∧ v ≤ cfgNewMoon.phase_max)) :=
  ⟨sun_vis_newmoon, (c8_moon_gating cfgNewMoon 1800 sun_vis_newmoon).1⟩

/-- C6: for sensible geometry (margins fit the width, non-negative arch
height), the returned x is monotonically non-decreasing, interpolates
linearly from `margin_left` at t=0 to `W − margin_right` at t=1, and the
returned y follows `y_base − arch·sin(π t)`, is symmetric about t=1/2 and
attains its maximal deviation (minimal y) at t=1/2. -/
theorem c6_arch_properties (t t1 t2 : ℝ) (W H : ℤ) (yb ah l r : ℝ)
    (hm : l + r ≤ (W : ℝ)) (hah : 0 ≤ ah)
    (ht0 : 0 ≤ t) (ht1 : t ≤ 1) (h12 : t1 ≤ t2) :
    (compute_arch_xy t1 W H yb ah (l, r)).1 ≤ (compute_arch_xy t2 W H yb ah (l, r)).1 ∧
    (compute_arch_xy t W H yb ah (l, r)).1 = pyround (l + ((W : ℝ) - l - r) * t) ∧
    (compute_arch_xy 0 W H yb ah (l, r)).1 = pyround l ∧
    (compute_arch_xy 1 W H yb ah (l, r)).1 = pyround ((W : ℝ) - r) ∧
    (compute_arch_xy t W H yb ah (l, r)).2 = pyround (yb - ah * Real.sin (Real.pi * t)) ∧
    (compute_arch_xy t W H yb ah (l, r)).2 = (compute_arch_xy (1 - t) W H yb ah (l, r)).2 ∧
    (compute_arch_xy (1 / 2) W H yb ah (l, r)).2 ≤ (compute_arch_xy t W H yb ah (l, r)).2 := by
  have hcoeff : 0 ≤ (W : ℝ) - l - r := by linarith
  have hct : clamp t 0 1 = t := clamp_of_mem ht0 ht1
  have hct2 : clamp (1 - t) 0 1 = 1 - t := clamp_of_mem (by linarith) (by linarith)
  have hc0 : clamp (0 : ℝ) 0 1 = 0 := clamp_of_mem le_rfl zero_le_one
  have hc1 : clamp (1 : ℝ) 0 1 = 1 := clamp_of_mem zero_le_one le_rfl
  have hch : clamp (1 / 2 : ℝ) 0 1 = 1 / 2 := clamp_of_mem (by norm_num) (by norm_num)
  refine ⟨?_, ?_, ?_, ?_, ?_, ?_, ?_⟩
  · simp only [compute_arch_xy]
    apply pyround_mono
    have hmul := mul_le_mul_of_nonneg_left (clamp_mono zero_le_one h12) hcoeff
    linarith
  · simp only [compute_arch_xy, hct]
  · simp only [compute_arch_xy, hc0]
    rw [mul_zero, add_zero]
  · simp only [compute_arch_xy, hc1]
    rw [mul_one]
    congr 1
    ring
  · simp only [compute_arch_xy, hct]
  · simp only [compute_arch_xy, hct, hct2]
    have hsym : Real.sin (Real.pi * (1 - t)) = Real.sin (Real.pi * t) := by
      rw [show Real.pi * (1 - t) = Real.pi - Real.pi * t by ring, Real.sin_pi_sub]
    rw [hsym]
  · simp only [compute_arch_xy, hct, hch]
    apply pyround_mono
    have hs1 : Real.sin (Real.pi * (1 / 2)) = 1 := by
      rw [show Real.pi * (1 / 2 : ℝ) = Real.pi / 2 by ring]
      exact Real.sin_pi_div_two
    rw [hs1]
    have hb := Real.sin_le_one (Real.pi * t)
    nlinarith

/-- C6 witness: the arch properties at t=1/2 on a 1920×1080 monitor with
horizon baseline 700 px, arch height 500 px and the default margins. -/
theorem c6_witness :
    (compute_arch_xy 0 1920 1080 700 500 (80, 80)).1 ≤
      (compute_arch_xy 1 1920 1080 700 500 (80, 80)).1 ∧
    (compute_arch_xy (1 / 2) 1920 1080 700 500 (80, 80)).1 =
      pyround (80 + (((1920 : ℤ) : ℝ) - 80 - 80) * (1 / 2)) ∧
    (compute_arch_xy 0 1920 1080 700 500 (80, 80)).1 = pyround 80 ∧
    (compute_arch_xy 1 1920 1080 700 500 (80, 80)).1 = pyround (((1920 : ℤ) : ℝ) - 80) ∧
    (compute_arch_xy (1 / 2) 1920 1080 700 500 (80, 80)).2 =
      pyround (700 - 500 * Real.sin (Real.pi * (1 / 2))) ∧
    (compute_arch_xy (1 / 2) 1920 1080 700 500 (80, 80)).2 =
      (compute_arch_xy (1 - 1 / 2) 1920 1080 700 500 (80, 80)).2 ∧
    (compute_arch_xy (1 / 2) 1920 1080 700 500 (80, 80)).2 ≤
      (compute_arch_xy (1 / 2) 1920 1080 700 500 (80, 80)).2 :=
  c6_arch_properties (1 / 2) 0 1 1920 1080 700 500 80 80
    (by norm_num) (by norm_num) (by norm_num) (by norm_num) (by norm_num)

/-- C7: the tint is none for day, the fixed `#000000` at strength 0.50
for night, and for dawn/dusk a `#ffb566` tint whose strength equals
`0.30 · smoothstep (1 − |minutes_to_edge| / twilight_minutes)`; that
strength is 0.30 exactly at `minutes_to_edge = 0`, strictly below 0.30
for any non-zero distance, and 0 at the twilight window boundary. -/
theorem c7_tint (m : ℝ) (tw : ℤ) (htw : 1 ≤ tw) (hm : m ≠ 0) :
    (∀ x : ℝ, compute_tint_all_layers .day x tw = .none) ∧
    (∀ x : ℝ, compute_tint_all_layers .night x tw = .spec "#000000" 0.50) ∧
    (∀ x : ℝ, compute_tint_all_layers .dawn x tw = .spec "#ffb566" (specTintStrength x tw)) ∧
    (∀ x : ℝ, compute_tint_all_layers .dusk x tw = .spec "#ffb566" (specTintStrength x tw)) ∧
    specTintStrength 0 tw = 0.30 ∧
    specTintStrength m tw < 0.30 ∧
    (|m| = ((tw : ℤ) : ℝ) → specTintStrength m tw = 0) := by
  have htwR : (1 : ℝ) ≤ ((tw : ℤ) : ℝ) := by exact_mod_cast htw
  have htwpos : (0 : ℝ) < ((tw : ℤ) : ℝ) := by linarith
  have hden : max 1 ((tw : ℤ) : ℝ) = ((tw : ℤ) : ℝ) := max_eq_right htwR
  have hk : ∀ x : ℝ,
      smoothstep (1 - clamp |x| 0 ((tw : ℤ) : ℝ) / ((tw : ℤ) : ℝ)) =
        smoothstep (1 - |x| / ((tw : ℤ) : ℝ)) := by
    intro x
    by_cases hx : |x| ≤ ((tw : ℤ) : ℝ)
    · rw [clamp_of_mem (abs_nonneg x) hx]
    · have h1 : clamp |x| 0 ((tw : ℤ) : ℝ) = ((tw : ℤ) : ℝ) := by
        unfold clamp
        rw [if_neg (not_lt.mpr (abs_nonneg x)), if_pos (not_le.mp hx)]
      have h2 : (1 : ℝ) ≤ |x| / ((tw : ℤ) : ℝ) :=
        (one_le_div htwpos).mpr (le_of_lt (not_le.mp hx))
      rw [h1, div_self (ne_of_gt htwpos),
        smoothstep_of_nonpos (by norm_num : (1 : ℝ) - 1 ≤ 0),
        smoothstep_of_nonpos (by linarith : 1 - |x| / ((tw : ℤ) : ℝ) ≤ 0)]
  have hstr : ∀ x : ℝ,
      clamp (0.30 * smoothstep (1 - |x| / ((tw : ℤ) : ℝ))) 0 1 =
        0.30 * smoothstep (1 - |x| / ((tw : ℤ) : ℝ)) := by
    intro x
    obtain ⟨hs0, hs1⟩ := smoothstep_mem (1 - |x| / ((tw : ℤ) : ℝ))
    exact clamp_of_mem (by linarith) (by linarith)
  refine ⟨?_, ?_, ?_, ?_, ?_, ?_, ?_⟩
  · intro x
    simp only [compute_tint_all_layers]
    rw [if_pos trivial]
  · intro x
    simp only [compute_tint_all_layers, tint_spec]
    rw [if_neg (by simp), if_neg (by simp), clamp_of_mem (by norm_num) (by norm_num)]
  · intro x
    simp only [compute_tint_all_layers, tint_spec, specTintStrength]
    rw [if_neg (by simp), if_pos (Or.inl trivial), hden, hk x, hstr x]
  · intro x
    simp only [compute_tint_all_layers, tint_spec, specTintStrength]
    rw [if_neg (by simp), if_pos (Or.inr trivial), hden, hk x, hstr x]
  · simp only [specTintStrength]
    rw [abs_zero, zero_div, sub_zero, smoothstep_one, mul_one]
  · simp only [specTintStrength]
    have habs : 0 < |m| := abs_pos.mpr hm
    have hdiv : 0 < |m| / ((tw : ℤ) : ℝ) := div_pos habs htwpos
    have hlt := smoothstep_lt_one (show 1 - |m| / ((tw : ℤ) : ℝ) < 1 by linarith)
    nlinarith
  · intro he
    simp only [specTintStrength]
    rw [he, div_self (ne_of_gt htwpos),
      smoothstep_of_nonpos (by norm_num : (1 : ℝ) - 1 ≤ 0), mul_zero]

/-- C7 witness: the tint properties at twilight 45 minutes and distance
45 minutes (the window boundary). -/
theorem c7_witness :
    (∀ x : ℝ, compute_tint_all_layers .day x 45 = .none) ∧
    (∀ x : ℝ, compute_tint_all_layers .night x 45 = .spec "#000000" 0.50) ∧
    (∀ x : ℝ, compute_tint_all_layers .dawn x 45 = .spec "#ffb566" (specTintStrength x 45)) ∧
    (∀ x : ℝ, compute_tint_all_layers .dusk x 45 = .spec "#ffb566" (specTintStrength x 45)) ∧
    specTintStrength 0 45 = 0.30 ∧
    specTintStrength 45 45 < 0.30 ∧
    (|(45 : ℝ)| = ((45 : ℤ) : ℝ) → specTintStrength 45 45 = 0) :=
  c7_tint 45 45 (by norm_num) (by norm_num)

/-- C9: whenever `sunrise ≤ now ≤ sunset` (and the day span is
non-degenerate), `t_day = (now − sunrise)/(sunset − sunrise) ∈ [0,1]`
and `t_night` is undefined; at the 06:30/18:30 scenario with now=12:30,
`t_day = 1/2`, the phase is day, the tint is none, and the sun sits at
the horizontal midpoint (960 of [80, 1840]) at apex height
(`y_base − arch_day` = 200). -/
theorem c9_day_progress :
    (∀ (c : Config) (now : ℝ), c.sunrise ≤ now → now ≤ c.sunset → c.sunrise < c.sunset →
      (compute_t c now).1 = some ((now - c.sunrise) / (c.sunset - c.sunrise)) ∧
      0 ≤ (now - c.sunrise) / (c.sunset - c.sunrise) ∧
      (now - c.sunrise) / (c.sunset - c.sunrise) ≤ 1 ∧
      (compute_t c now).2 = Option.none) ∧
    (compute_t cfgNoon 45000).1 = some (1 / 2) ∧
    (compute_once cfgNoon 45000).phase = .day ∧
    (compute_once cfgNoon 45000).layer_tint = .none ∧
    (compute_once cfgNoon 45000).sun_xy = some (960, 200) ∧
    ((960 : ℤ) = (80 + (1920 - 80)) / 2) ∧
    ((200 : ℝ) = cfgNoon.y_base - cfgNoon.arch_day) := by
  refine ⟨?_, ?_, ?_, ?_, ?_, by decide, by norm_num [cfgNoon]⟩
  · intro c now h1 h2 h3
    refine ⟨?_, ?_, ?_, ?_⟩
    · unfold compute_t
      rw [if_pos ⟨h1, h2⟩]
    · apply div_nonneg <;> linarith
    · rw [div_le_one (by linarith)]
      linarith
    · unfold compute_t
      rw [if_pos ⟨h1, h2⟩]
  · rw [compute_t_noon]
  · rw [compute_once_noon]
  · rw [compute_once_noon]
  · rw [compute_once_noon]

/-- C9 witness: the progress contract instantiated at the scenario
configuration and solar noon. -/
theorem c9_witness :
    (compute_t cfgNoon 45000).1 =
      some ((45000 - cfgNoon.sunrise) / (cfgNoon.sunset - cfgNoon.sunrise)) ∧
    0 ≤ (45000 - cfgNoon.sunrise) / (cfgNoon.sunset - cfgNoon.sunrise) ∧
    (45000 - cfgNoon.sunrise) / (cfgNoon.sunset - cfgNoon.sunrise) ≤ 1 ∧
    (compute_t cfgNoon 45000).2 = Option.none :=
  c9_day_progress.1 cfgNoon 45000 (by norm_num [cfgNoon]) (by norm_num [cfgNoon])
    (by norm_num [cfgNoon])

/-- C10: `compute_arch_xy` clamps its progress argument to [0,1] before
use — it agrees with itself at `clamp t 0 1` for every real `t` — and
whenever the margins fit the width the returned x stays within the
rounded range `[margin_left, W − margin_right]`, even for out-of-range
progress values. -/
theorem c10_clamp_idempotent :
    (∀ (t : ℝ) (W H : ℤ) (yb ah l r : ℝ),
      compute_arch_xy t W H yb ah (l, r) = compute_arch_xy (clamp t 0 1) W H yb ah (l, r)) ∧
    (∀ (t : ℝ) (W H : ℤ) (yb ah l r : ℝ), l + r ≤ (W : ℝ) →
      pyround l ≤ (compute_arch_xy t W H yb ah (l, r)).1 ∧
      (compute_arch_xy t W H yb ah (l, r)).1 ≤ pyround ((W : ℝ) - r)) := by
  have hidem : ∀ t : ℝ, clamp (clamp t 0 1) 0 1 = clamp t 0 1 := fun t =>
    clamp_of_mem (clamp_mem zero_le_one).1 (clamp_mem zero_le_one).2
  constructor
  · intro t W H yb ah l r
    simp only [compute_arch_xy, hidem]
  · intro t W H yb ah l r hm
    have hcoeff : 0 ≤ (W : ℝ) - l - r := by linarith
    obtain ⟨hcl0, hcl1⟩ := clamp_mem (x := t) (zero_le_one)
    constructor
    · simp only [compute_arch_xy]
      apply pyround_mono
      nlinarith [mul_nonneg hcoeff hcl0]
    · simp only [compute_arch_xy]
      apply pyround_mono
      nlinarith [mul_le_mul_of_nonneg_left hcl1 hcoeff]

/-- C10 witness: the rounded-range bound at the out-of-range progress
value t=5 on a 1920-wide monitor with the default margins. -/
theorem c10_witness :
    pyround 80 ≤ (compute_arch_xy 5 1920 1080 700 500 (80, 80)).1 ∧
    (compute_arch_xy 5 1920 1080 700 500 (80, 80)).1 ≤ pyround (((1920 : ℤ) : ℝ) - 80) :=
  c10_clamp_idempotent.2 5 1920 1080 700 500 80 80 (by norm_num)

end DynamicSky
